import Mathlib

/-!
Formal model of the order validation and request-construction engine of an
HTTP trading API (source: `main.py`).  Prices and volumes are embedded as
rationals.  Python's `round` (round-half-to-even) is modelled exactly by
`pythonRound`.  Reason strings returned by the validators are modelled by an
inductive `Reason` that keeps the interpolated values, so distinct messages
stay distinct.
-/

namespace MT5

/-- `tipo` field of `Ordem`: "compra" | "venda". -/
inductive Tipo
  | compra
  | venda
deriving DecidableEq, Repr

/-- `execucao` field of `Ordem`: "mercado" | "limite" | "stop". -/
inductive Execucao
  | mercado
  | limite
  | stop
deriving DecidableEq, Repr

/-- The `Ordem` pydantic input model (trade intent). -/
structure Ordem where
  ticker : String
  tipo : Tipo
  quantidade : ℚ
  execucao : Execucao
  preco : Option ℚ
  sl : Option ℚ
  tp : Option ℚ
deriving DecidableEq, Repr

/-- The symbol metadata the engine reads via `getattr(symbol, ..., default)`.
`none` models an absent attribute (`getattr` returning `None`). -/
structure SymbolInfo where
  point : Option ℚ
  volume_min : Option ℚ
  volume_max : Option ℚ
  volume_step : Option ℚ
  trade_stops_level : Option ℤ
deriving DecidableEq, Repr

/-- A bid/ask quote snapshot (`symbol_info_tick` result). -/
structure Tick where
  bid : ℚ
  ask : ℚ
deriving DecidableEq, Repr

/-- The six MT5 order-type constants used by the engine. -/
inductive OrderType
  | BUY
  | SELL
  | BUY_LIMIT
  | SELL_LIMIT
  | BUY_STOP
  | SELL_STOP
deriving DecidableEq, Repr

/-- The `kind` strings passed to the entry-price validators. -/
inductive Kind
  | BUY_LIMIT
  | SELL_LIMIT
  | BUY_STOP
  | SELL_STOP
deriving DecidableEq, Repr

/-- Rejection reasons (the message strings of the source, with their
interpolated values). -/
inductive Reason
  | volumeInfoUnavailable
  | belowMin (minv : ℚ)
  | aboveMax (maxv : ℚ)
  | invalidStep (step minv : ℚ)
  | stepFault
  | noTickForPrice
  | buyLimitTooHigh (ask : ℚ)
  | sellLimitTooLow (bid : ℚ)
  | buyStopTooLow (ask : ℚ)
  | sellStopTooHigh (bid : ℚ)
  | slWrongSide
  | slTooClose (minDist : ℚ)
  | tpWrongSide
  | tpTooClose (minDist : ℚ)
  | noTick
  | precoObrigatorioLimite
  | precoObrigatorioStop
deriving DecidableEq, Repr

/-- Python's `round` on rationals: nearest integer, ties to the even one. -/
def pythonRound (x : ℚ) : ℤ :=
  if x - ⌊x⌋ < 1/2 then ⌊x⌋
  else if 1/2 < x - ⌊x⌋ then ⌊x⌋ + 1
  else if 2 ∣ ⌊x⌋ then ⌊x⌋ else ⌊x⌋ + 1

/-- `_normalize_price`: snap a price to the symbol's `point` grid; a missing
or non-positive `point` leaves the price unchanged. -/
def _normalize_price (symbol : SymbolInfo) (price : ℚ) : ℚ :=
  let point := symbol.point.getD 0
  if point ≤ 0 then price
  else (pythonRound (price / point) : ℚ) * point

/-- `_validate_volume`: min/max/step volume rules.  The `step = 0` branch is
the source's `except` handler (in Python `(volume - minv) / 0.0` raises
`ZeroDivisionError`, caught and turned into the step-fault message). -/
def _validate_volume (symbol : SymbolInfo) (volume : ℚ) : Bool × Option Reason :=
  match symbol.volume_min, symbol.volume_max, symbol.volume_step with
  | some minv, some maxv, some step =>
    if volume < minv then (false, some (.belowMin minv))
    else if volume > maxv then (false, some (.aboveMax maxv))
    else if step = 0 then (false, some .stepFault)
    else
      let ratio := (volume - minv) / step
      if |ratio - (pythonRound ratio : ℚ)| > 1/1000000 then
        (false, some (.invalidStep step minv))
      else (true, none)
  | _, _, _ => (false, some .volumeInfoUnavailable)

/-- `_validate_limit_price`: BUY_LIMIT needs price ≤ ask, SELL_LIMIT needs
price ≥ bid; no tick fails outright. -/
def _validate_limit_price (kind : Kind) (price : ℚ) (tick : Option Tick) :
    Bool × Option Reason :=
  match tick with
  | none => (false, some .noTickForPrice)
  | some t =>
    if kind = .BUY_LIMIT ∧ ¬ (price ≤ t.ask) then (false, some (.buyLimitTooHigh t.ask))
    else if kind = .SELL_LIMIT ∧ ¬ (price ≥ t.bid) then (false, some (.sellLimitTooLow t.bid))
    else (true, none)

/-- `_validate_stop_price`: BUY_STOP needs price ≥ ask, SELL_STOP needs
price ≤ bid; no tick fails outright. -/
def _validate_stop_price (kind : Kind) (price : ℚ) (tick : Option Tick) :
    Bool × Option Reason :=
  match tick with
  | none => (false, some .noTickForPrice)
  | some t =>
    if kind = .BUY_STOP ∧ ¬ (price ≥ t.ask) then (false, some (.buyStopTooLow t.ask))
    else if kind = .SELL_STOP ∧ ¬ (price ≤ t.bid) then (false, some (.sellStopTooHigh t.bid))
    else (true, none)

/-- The side assigned to each order type by the source's `from_types` table
(every one of the six constants is in the table, so the `side is None`
fallback of the source is unreachable). -/
def sideOfOrderType : OrderType → Tipo
  | .BUY | .BUY_LIMIT | .BUY_STOP => .compra
  | .SELL | .SELL_LIMIT | .SELL_STOP => .venda

/-- `_validate_stops_distance`: SL/TP side and minimum-distance rules driven
by `trade_stops_level` (in points) and `point`. -/
def _validate_stops_distance (symbol : SymbolInfo) (order_type : OrderType)
    (price : ℚ) (sl tp : Option ℚ) : Bool × Option Reason :=
  let stops_level := symbol.trade_stops_level.getD 0
  let point := symbol.point.getD 0
  if stops_level ≤ 0 ∨ point ≤ 0 then (true, none)
  else
    let min_dist : ℚ := (stops_level : ℚ) * point
    let side := sideOfOrderType order_type
    let checkTp : Bool × Option Reason :=
      match tp with
      | none => (true, none)
      | some t =>
        let dist := if side = .compra then t - price else price - t
        if dist ≤ 0 then (false, some .tpWrongSide)
        else if dist < min_dist then (false, some (.tpTooClose min_dist))
        else (true, none)
    match sl with
    | none => checkTp
    | some s =>
      let dist := if side = .compra then price - s else s - price
      if dist ≤ 0 then (false, some .slWrongSide)
      else if dist < min_dist then (false, some (.slTooClose min_dist))
      else checkTp

/-- MT5 trade actions used by the builder. -/
inductive TradeAction
  | DEAL
  | PENDING
  | SLTP
deriving DecidableEq, Repr

/-- MT5 filling policies used by the builder. -/
inductive Filling
  | IOC
  | RETURN
deriving DecidableEq, Repr

/-- MT5 time policies used by the builder. -/
inductive TimePolicy
  | GTC
deriving DecidableEq, Repr

/-- The order-request dict assembled by `_build_order_request`; `sl`/`tp`
are `none` exactly when the corresponding key is absent from the dict. -/
structure OrderRequest where
  action : TradeAction
  symbol : String
  volume : ℚ
  type : OrderType
  price : ℚ
  deviation : ℕ
  magic : ℕ
  comment : String
  type_time : TimePolicy
  type_filling : Filling
  sl : Option ℚ
  tp : Option ℚ
deriving DecidableEq, Repr

/-- The string form of `execucao` interpolated into the request comment. -/
def execucaoStr : Execucao → String
  | .mercado => "mercado"
  | .limite => "limite"
  | .stop => "stop"

/-- Shared tail of `_build_order_request`: SL/TP distance validation then the
request dict. -/
def _build_order_tail (o : Ordem) (symbol : SymbolInfo) (order_type : OrderType)
    (price : ℚ) (action : TradeAction) (filling : Filling) :
    Except (Option Reason) OrderRequest :=
  match _validate_stops_distance symbol order_type price o.sl o.tp with
  | (false, msg) => .error msg
  | (true, _) =>
    .ok { action := action
          symbol := o.ticker
          volume := o.quantidade
          type := order_type
          price := price
          deviation := 20
          magic := 1001
          comment := "API_MT5_v2_" ++ execucaoStr o.execucao
          type_time := .GTC
          type_filling := filling
          sl := o.sl
          tp := o.tp }

/-- `_build_order_request`: errors are the `HTTPException(400, msg)` raises of
the source (the payload is the message, which may be the validator's
`motivo`). -/
def _build_order_request (o : Ordem) (symbol : SymbolInfo) (tick : Tick) :
    Except (Option Reason) OrderRequest :=
  match o.execucao with
  | .mercado =>
    let is_buy := o.tipo = .compra
    let order_type := if is_buy then OrderType.BUY else .SELL
    let price := _normalize_price symbol (if is_buy then tick.ask else tick.bid)
    _build_order_tail o symbol order_type price .DEAL .IOC
  | .limite =>
    let is_buy := o.tipo = .compra
    match o.preco with
    | none => .error (some .precoObrigatorioLimite)
    | some p =>
      let price := _normalize_price symbol p
      let kind := if is_buy then Kind.BUY_LIMIT else .SELL_LIMIT
      match _validate_limit_price kind price (some tick) with
      | (false, msg) => .error msg
      | (true, _) =>
        _build_order_tail o symbol (if is_buy then .BUY_LIMIT else .SELL_LIMIT)
          price .PENDING .RETURN
  | .stop =>
    let is_buy := o.tipo = .compra
    match o.preco with
    | none => .error (some .precoObrigatorioStop)
    | some p =>
      let price := _normalize_price symbol p
      let kind := if is_buy then Kind.BUY_STOP else .SELL_STOP
      match _validate_stop_price kind price (some tick) with
      | (false, msg) => .error msg
      | (true, _) =>
        _build_order_tail o symbol (if is_buy then .BUY_STOP else .SELL_STOP)
          price .PENDING .RETURN

/-- The dict returned by `_validar_ordem`: `regras` is `some` exactly when
the source's dict carries the `"regras"` key. -/
structure Verdict where
  ok : Bool
  motivo : Option Reason
  regras : Option (Option ℚ × Option ℚ × Option ℚ)
deriving DecidableEq, Repr

/-- Order type selected by `_validar_ordem` from (execucao, tipo). -/
def orderTypeOf : Execucao → Tipo → OrderType
  | .mercado, .compra => .BUY
  | .mercado, .venda => .SELL
  | .limite, .compra => .BUY_LIMIT
  | .limite, .venda => .SELL_LIMIT
  | .stop, .compra => .BUY_STOP
  | .stop, .venda => .SELL_STOP

/-- Tail of `_validar_ordem` after the entry-price checks: order type,
reference price, SL/TP distance validation, final verdict.  The `.getD 0` on
`preco` mirrors `float(o.preco)`, reached only when `preco` is present. -/
def _validar_ordem_tail (symbol : SymbolInfo) (tick : Tick) (o : Ordem) : Verdict :=
  let order_type := orderTypeOf o.execucao o.tipo
  let ref_price :=
    match o.execucao with
    | .mercado => if o.tipo = .compra then tick.ask else tick.bid
    | _ => o.preco.getD 0
  match _validate_stops_distance symbol order_type ref_price o.sl o.tp with
  | (false, motivo) => ⟨false, motivo, none⟩
  | (true, _) =>
    ⟨true, none, some (symbol.volume_min, symbol.volume_max, symbol.volume_step)⟩

/-- `_validar_ordem`: the validation orchestrator, with the terminal
collaborator's answers (`symbol`, `tick?`) passed in explicitly. -/
def _validar_ordem (symbol : SymbolInfo) (tick? : Option Tick) (o : Ordem) : Verdict :=
  match _validate_volume symbol o.quantidade with
  | (false, motivo) =>
    ⟨false, motivo, some (symbol.volume_min, symbol.volume_max, symbol.volume_step)⟩
  | (true, _) =>
    match tick? with
    | none => ⟨false, some .noTick, none⟩
    | some tick =>
      match o.execucao with
      | .mercado => _validar_ordem_tail symbol tick o
      | .limite =>
        match o.preco with
        | none => ⟨false, some .precoObrigatorioLimite, none⟩
        | some p =>
          let price := _normalize_price symbol p
          let kind := if o.tipo = .compra then Kind.BUY_LIMIT else .SELL_LIMIT
          match _validate_limit_price kind price (some tick) with
          | (false, motivo) => ⟨false, motivo, none⟩
          | (true, _) => _validar_ordem_tail symbol tick o
      | .stop =>
        match o.preco with
        | none => ⟨false, some .precoObrigatorioStop, none⟩
        | some p =>
          let price := _normalize_price symbol p
          let kind := if o.tipo = .compra then Kind.BUY_STOP else .SELL_STOP
          match _validate_stop_price kind price (some tick) with
          | (false, motivo) => ⟨false, motivo, none⟩
          | (true, _) => _validar_ordem_tail symbol tick o

/-- Calls made to the terminal collaborator, in program order. -/
inductive Event
  | ensureMt5
  | activateSymbol
  | resolveConstraints
  | resolveQuote
  | buildRequest
  | submit
deriving DecidableEq, Repr

/-- Collaborator calls made by `_validar_ordem`: `ensure_mt5`,
`ativar_simbolo`, `symbol_info`; `symbol_info_tick` is called exactly when
the volume check passed (the call happens even if it then returns no tick). -/
def _validar_ordem_trace (symbol : SymbolInfo) (o : Ordem) : List Event :=
  [.ensureMt5, .activateSymbol, .resolveConstraints] ++
  (if (_validate_volume symbol o.quantidade).1 then [.resolveQuote] else [])

/-- Collaborator calls made by the `POST /ordem` endpoint: validation first;
on an admissible verdict it re-resolves tick and symbol, invokes the builder,
and submits exactly when the builder succeeded. -/
def ordem_trace (symbol : SymbolInfo) (tick? : Option Tick) (o : Ordem) : List Event :=
  _validar_ordem_trace symbol o ++
  (if (_validar_ordem symbol tick? o).ok then
    [.ensureMt5, .activateSymbol, .resolveQuote] ++
    (match tick? with
     | none => []
     | some tick =>
       [.resolveConstraints, .buildRequest] ++
       (match _build_order_request o symbol tick with
        | .ok _ => [.submit]
        | .error _ => []))
  else [])

/-- Outcome of the `POST /ordem` endpoint up to the terminal submission call:
an HTTP error (status, optional reason payload) or the request handed to
`order_send`. -/
def ordem_endpoint (symbol? : Option SymbolInfo) (tick? : Option Tick) (o : Ordem) :
    Except (ℕ × Option Reason) OrderRequest :=
  match symbol? with
  | none => .error (404, none)
  | some symbol =>
    let v := _validar_ordem symbol tick? o
    if v.ok then
      match tick? with
      | none => .error (404, none)
      | some tick =>
        match _build_order_request o symbol tick with
        | .error r => .error (400, r)
        | .ok req => .ok req
    else .error (400, v.motivo)

/-! ## Helper lemmas about Python rounding -/

/-- `pythonRound x` is a nearest integer to `x`. -/
theorem pythonRound_min (x : ℚ) (k : ℤ) : |x - (pythonRound x : ℚ)| ≤ |x - (k : ℚ)| := by
  have hf : (⌊x⌋ : ℚ) ≤ x := Int.floor_le x
  have hf2 : x < ⌊x⌋ + 1 := Int.lt_floor_add_one x
  have hk : (k : ℚ) ≤ (⌊x⌋ : ℚ) ∨ (⌊x⌋ : ℚ) + 1 ≤ (k : ℚ) := by
    rcases le_or_lt k ⌊x⌋ with h | h
    · exact Or.inl (by exact_mod_cast h)
    · right
      have h2 : ⌊x⌋ + 1 ≤ k := h
      exact_mod_cast h2
  unfold pythonRound
  split_ifs with h1 h2 h3 <;>
    rcases hk with hk | hk <;>
    push_cast <;>
    rw [abs_le] <;>
    rcases abs_cases (x - (k : ℚ)) with ⟨he, hs⟩ | ⟨he, hs⟩ <;>
    rw [he] <;>
    constructor <;> linarith

/-- Rounding an integer gives it back. -/
theorem pythonRound_intCast (k : ℤ) : pythonRound (k : ℚ) = k := by
  simp [pythonRound, Int.floor_intCast]

/-- `pythonRound` moves a value by at most one half. -/
theorem abs_sub_pythonRound_le_half (x : ℚ) : |x - (pythonRound x : ℚ)| ≤ 1/2 := by
  have hf : (⌊x⌋ : ℚ) ≤ x := Int.floor_le x
  have hf2 : x < ⌊x⌋ + 1 := Int.lt_floor_add_one x
  rcases le_or_lt (x - ⌊x⌋) (1/2) with h | h
  · calc |x - (pythonRound x : ℚ)| ≤ |x - (⌊x⌋ : ℚ)| := pythonRound_min x ⌊x⌋
      _ ≤ 1/2 := by rw [abs_of_nonneg (by linarith)]; linarith
  · calc |x - (pythonRound x : ℚ)| ≤ |x - ((⌊x⌋ + 1 : ℤ) : ℚ)| := pythonRound_min x (⌊x⌋ + 1)
      _ ≤ 1/2 := by push_cast; rw [abs_of_nonpos (by linarith)]; linarith

/-- Some integer is within `ε` of `x` exactly when the rounded one is. -/
theorem exists_near_int_iff (x ε : ℚ) :
    (∃ k : ℤ, |x - (k : ℚ)| ≤ ε) ↔ |x - (pythonRound x : ℚ)| ≤ ε := by
  constructor
  · rintro ⟨k, hk⟩
    exact le_trans (pythonRound_min x k) hk
  · intro h
    exact ⟨pythonRound x, h⟩

/-- The source's relative ratio test is the "integer multiple of `step`
within relative tolerance" condition, for any nonzero `step`. -/
theorem step_multiple_iff (d step : ℚ) (hs : step ≠ 0) :
    (∃ k : ℤ, |d - (k : ℚ) * step| ≤ |step| / 1000000) ↔
    |d / step - (pythonRound (d / step) : ℚ)| ≤ 1/1000000 := by
  rw [← exists_near_int_iff]
  have habs : (0 : ℚ) < |step| := abs_pos.mpr hs
  have key : ∀ k : ℤ, |d - (k : ℚ) * step| = |step| * |d / step - (k : ℚ)| := by
    intro k
    have e : d - (k : ℚ) * step = step * (d / step - (k : ℚ)) := by
      field_simp
      ring
    rw [e, abs_mul]
  constructor
  · rintro ⟨k, hk⟩
    refine ⟨k, ?_⟩
    rw [key k] at hk
    have := (mul_le_mul_left habs).mp (by
      calc |step| * |d / step - (k : ℚ)| ≤ |step| / 1000000 := hk
        _ = |step| * (1/1000000) := by ring)
    exact this
  · rintro ⟨k, hk⟩
    refine ⟨k, ?_⟩
    rw [key k]
    calc |step| * |d / step - (k : ℚ)| ≤ |step| * (1/1000000) :=
          (mul_le_mul_left habs).mpr hk
      _ = |step| / 1000000 := by ring

/-! ## Claim theorems -/

/-- C5: the Price Normalizer returns the input unchanged when the tick size
is zero, negative or unknown; for a positive tick size it returns an integer
multiple of the tick size that is nearest to the input among all such
multiples; and it is idempotent. -/
theorem C5_price_normalizer (symbol : SymbolInfo) (p : ℚ) :
    (symbol.point.getD 0 ≤ 0 → _normalize_price symbol p = p) ∧
    (0 < symbol.point.getD 0 →
      ∃ n : ℤ, _normalize_price symbol p = (n : ℚ) * symbol.point.getD 0 ∧
        ∀ k : ℤ, |p - _normalize_price symbol p| ≤ |p - (k : ℚ) * symbol.point.getD 0|) ∧
    _normalize_price symbol (_normalize_price symbol p) = _normalize_price symbol p := by
  by_cases hle : symbol.point.getD 0 ≤ 0
  · refine ⟨fun _ => ?_, fun hlt => absurd hlt (not_lt.mpr hle), ?_⟩
    · simp [_normalize_price, hle]
    · simp [_normalize_price, hle]
  · have hlt : 0 < symbol.point.getD 0 := lt_of_not_le hle
    have hne : symbol.point.getD 0 ≠ 0 := ne_of_gt hlt
    have hnorm : _normalize_price symbol p =
        (pythonRound (p / symbol.point.getD 0) : ℚ) * symbol.point.getD 0 := by
      simp [_normalize_price, hle]
    refine ⟨fun h => absurd h hle,
      fun _ => ⟨pythonRound (p / symbol.point.getD 0), hnorm, fun k => ?_⟩, ?_⟩
    · have e1 : p - (pythonRound (p / symbol.point.getD 0) : ℚ) * symbol.point.getD 0 =
          (p / symbol.point.getD 0 - (pythonRound (p / symbol.point.getD 0) : ℚ)) *
            symbol.point.getD 0 := by
        field_simp
        ring
      have e2 : p - (k : ℚ) * symbol.point.getD 0 =
          (p / symbol.point.getD 0 - (k : ℚ)) * symbol.point.getD 0 := by
        field_simp
        ring
      rw [hnorm, e1, e2, abs_mul, abs_mul]
      exact mul_le_mul_of_nonneg_right (pythonRound_min _ k) (abs_nonneg _)
    · rw [hnorm]
      have hdiv : ((pythonRound (p / symbol.point.getD 0) : ℚ) * symbol.point.getD 0) /
          symbol.point.getD 0 = (pythonRound (p / symbol.point.getD 0) : ℚ) :=
        mul_div_cancel_right₀ _ hne
      simp [_normalize_price, hle, hdiv, pythonRound_intCast]

/-- C5 witness: concrete instances of the three conjuncts. -/
theorem C5_price_normalizer_witness :
    _normalize_price ⟨none, none, none, none, none⟩ (37/10) = 37/10 ∧
    (∃ n : ℤ, _normalize_price ⟨some (1/100), none, none, none, none⟩ (1003/1000) =
      (n : ℚ) * (SymbolInfo.mk (some (1/100)) none none none none).point.getD 0 ∧
      ∀ k : ℤ, |(1003/1000 : ℚ) - _normalize_price ⟨some (1/100), none, none, none, none⟩ (1003/1000)| ≤
        |(1003/1000 : ℚ) - (k : ℚ) * (SymbolInfo.mk (some (1/100)) none none none none).point.getD 0|) ∧
    _normalize_price ⟨some (1/100), none, none, none, none⟩
        (_normalize_price ⟨some (1/100), none, none, none, none⟩ (1003/1000)) =
      _normalize_price ⟨some (1/100), none, none, none, none⟩ (1003/1000) :=
  ⟨(C5_price_normalizer ⟨none, none, none, none, none⟩ (37/10)).1 (by norm_num),
   (C5_price_normalizer ⟨some (1/100), none, none, none, none⟩ (1003/1000)).2.1 (by norm_num),
   (C5_price_normalizer ⟨some (1/100), none, none, none, none⟩ (1003/1000)).2.2⟩

/-- C1 counterexample: with min = 1, max = 2 and step = 0 all known and
quantity 1, the claim's conditions for acceptance hold (1 ∈ [min, max] and
(1 − min) = 0 is an integer multiple of the step within tolerance), yet the
Volume Validator does not accept: the zero step takes the division-fault
branch instead. -/
theorem C1_counterexample :
    ((1 : ℚ) ≥ 1 ∧ (1 : ℚ) ≤ 2 ∧
      (∃ k : ℤ, |(1 : ℚ) - 1 - (k : ℚ) * 0| ≤ |(0 : ℚ)| / 1000000)) ∧
    _validate_volume ⟨none, some 1, some 2, some 0, none⟩ 1 ≠ (true, none) ∧
    _validate_volume ⟨none, some 1, some 2, some 0, none⟩ 1 = (false, some .stepFault) := by
  refine ⟨⟨le_refl 1, by norm_num, ⟨0, by norm_num⟩⟩, ?_, ?_⟩
  · norm_num [_validate_volume]
  · norm_num [_validate_volume]

/-- C1 (amended): the Volume Validator fails with the constraints-unavailable
reason when any of min, max, step is unknown; with all three known it applies
its rules in order with the first failure winning: below-minimum, then
above-maximum, then — provided the step is nonzero — the step-multiple rule
with relative tolerance 1e-6, accepting otherwise; a zero step in range
yields the step-fault reason instead. -/
theorem C1_volume_validator (symbol : SymbolInfo) (q : ℚ) :
    ((symbol.volume_min = none ∨ symbol.volume_max = none ∨ symbol.volume_step = none) →
      _validate_volume symbol q = (false, some .volumeInfoUnavailable)) ∧
    (∀ minv maxv step : ℚ, symbol.volume_min = some minv → symbol.volume_max = some maxv →
      symbol.volume_step = some step →
      (q < minv → _validate_volume symbol q = (false, some (.belowMin minv))) ∧
      (minv ≤ q → maxv < q → _validate_volume symbol q = (false, some (.aboveMax maxv))) ∧
      (step = 0 → minv ≤ q → q ≤ maxv →
        _validate_volume symbol q = (false, some .stepFault)) ∧
      (step ≠ 0 → minv ≤ q → q ≤ maxv →
        (¬ (∃ k : ℤ, |q - minv - (k : ℚ) * step| ≤ |step| / 1000000) →
          _validate_volume symbol q = (false, some (.invalidStep step minv))) ∧
        ((∃ k : ℤ, |q - minv - (k : ℚ) * step| ≤ |step| / 1000000) →
          _validate_volume symbol q = (true, none)))) := by
  obtain ⟨pt, vmin, vmax, vstep, lvl⟩ := symbol
  constructor
  · rintro (h | h | h) <;> subst h
    · rfl
    · cases vmin <;> rfl
    · cases vmin with
      | none => rfl
      | some a => cases vmax <;> rfl
  · intro minv maxv step hmin hmax hstep
    have h1 : vmin = some minv := hmin
    have h2 : vmax = some maxv := hmax
    have h3 : vstep = some step := hstep
    subst h1
    subst h2
    subst h3
    have hbody : _validate_volume ⟨pt, some minv, some maxv, some step, lvl⟩ q =
        (if q < minv then (false, some (.belowMin minv))
        else if q > maxv then (false, some (.aboveMax maxv))
        else if step = 0 then (false, some .stepFault)
        else if |(q - minv) / step - (pythonRound ((q - minv) / step) : ℚ)| > 1/1000000 then
          (false, some (.invalidStep step minv))
        else (true, none)) := rfl
    refine ⟨fun h => ?_, fun h1 h2 => ?_, fun hz h1 h2 => ?_, fun hz h1 h2 => ⟨fun hm => ?_, fun hm => ?_⟩⟩
    · rw [hbody, if_pos h]
    · rw [hbody, if_neg (not_lt.mpr h1), if_pos h2]
    · rw [hbody, if_neg (not_lt.mpr h1), if_neg (not_lt.mpr h2), if_pos hz]
    · rw [step_multiple_iff (q - minv) step hz, not_le] at hm
      rw [hbody, if_neg (not_lt.mpr h1), if_neg (not_lt.mpr h2), if_neg hz, if_pos hm]
    · rw [step_multiple_iff (q - minv) step hz] at hm
      rw [hbody, if_neg (not_lt.mpr h1), if_neg (not_lt.mpr h2), if_neg hz,
        if_neg (not_lt.mpr hm)]

/-- C1 witness: quantity 0.07 against min 0.01 / max 10 / step 0.01 is
accepted; fully unknown constraints are rejected as unavailable. -/
theorem C1_volume_validator_witness :
    _validate_volume ⟨none, some (1/100), some 10, some (1/100), none⟩ (7/100) = (true, none) ∧
    _validate_volume ⟨none, none, none, none, none⟩ (7/100) =
      (false, some .volumeInfoUnavailable) :=
  ⟨(((C1_volume_validator ⟨none, some (1/100), some 10, some (1/100), none⟩ (7/100)).2
      (1/100) 10 (1/100) rfl rfl rfl).2.2.2 (by norm_num) (by norm_num) (by norm_num)).2
      ⟨6, by norm_num; positivity⟩,
   (C1_volume_validator ⟨none, none, none, none, none⟩ (7/100)).1 (Or.inl rfl)⟩

/-- C2: entry-price validation for non-market orders — BuyLimit accepts iff
price ≤ ask (else limit-price-too-high), SellLimit accepts iff price ≥ bid
(else limit-price-too-low), BuyStop accepts iff price ≥ ask (else
stop-price-too-low), SellStop accepts iff price ≤ bid (else
stop-price-too-high); with no quote, both validators reject with the no-quote
reason for every kind. -/
theorem C2_entry_price_validator (price : ℚ) (t : Tick) :
    (_validate_limit_price .BUY_LIMIT price (some t) = (true, none) ↔ price ≤ t.ask) ∧
    (¬ price ≤ t.ask →
      _validate_limit_price .BUY_LIMIT price (some t) = (false, some (.buyLimitTooHigh t.ask))) ∧
    (_validate_limit_price .SELL_LIMIT price (some t) = (true, none) ↔ t.bid ≤ price) ∧
    (¬ t.bid ≤ price →
      _validate_limit_price .SELL_LIMIT price (some t) = (false, some (.sellLimitTooLow t.bid))) ∧
    (_validate_stop_price .BUY_STOP price (some t) = (true, none) ↔ t.ask ≤ price) ∧
    (¬ t.ask ≤ price →
      _validate_stop_price .BUY_STOP price (some t) = (false, some (.buyStopTooLow t.ask))) ∧
    (_validate_stop_price .SELL_STOP price (some t) = (true, none) ↔ price ≤ t.bid) ∧
    (¬ price ≤ t.bid →
      _validate_stop_price .SELL_STOP price (some t) = (false, some (.sellStopTooHigh t.bid))) ∧
    (∀ kind, _validate_limit_price kind price none = (false, some .noTickForPrice) ∧
      _validate_stop_price kind price none = (false, some .noTickForPrice)) := by
  refine ⟨?_, ?_, ?_, ?_, ?_, ?_, ?_, ?_, fun kind => ⟨rfl, rfl⟩⟩
  · by_cases h : price ≤ t.ask <;> simp [_validate_limit_price, h]
  · intro h; simp [_validate_limit_price, h]
  · by_cases h : t.bid ≤ price <;> simp [_validate_limit_price, h]
  · intro h; simp [_validate_limit_price, h]
  · by_cases h : t.ask ≤ price <;> simp [_validate_stop_price, h]
  · intro h; simp [_validate_stop_price, h]
  · by_cases h : price ≤ t.bid <;> simp [_validate_stop_price, h]
  · intro h; simp [_validate_stop_price, h]

/-- C2 witness: a buy-limit above the ask is rejected with the
limit-too-high reason, one at the ask accepted, and a missing quote is
rejected with the no-quote reason. -/
theorem C2_entry_price_validator_witness :
    _validate_limit_price .BUY_LIMIT 2 (some ⟨1, 1⟩) = (false, some (.buyLimitTooHigh 1)) ∧
    _validate_limit_price .BUY_LIMIT 1 (some ⟨1, 1⟩) = (true, none) ∧
    _validate_stop_price .SELL_STOP 2 none = (false, some .noTickForPrice) :=
  ⟨(C2_entry_price_validator 2 ⟨1, 1⟩).2.1 (by norm_num),
   (C2_entry_price_validator 1 ⟨1, 1⟩).1.mpr (by norm_num),
   ((C2_entry_price_validator 2 ⟨1, 1⟩).2.2.2.2.2.2.2.2 .SELL_STOP).2⟩

/-- C3: the Stop-Distance Validator passes unconditionally when the stop
level is non-positive or the tick size is unknown/non-positive; otherwise,
with minDistance = level × tick, a supplied stopLoss whose signed distance
(reference − sl for Buy kinds, sl − reference for Sell kinds) is ≤ 0 is
rejected stop-on-wrong-side, one positive but below minDistance is rejected
stop-too-close; with the stopLoss absent or far enough, a supplied takeProfit
is checked the same way with the take-profit-tagged reasons, and when both
fields are absent or far enough it accepts; including the concrete scenario
level=100, tick=0.00001, Buy at 1.10010 with sl=1.09950 rejected
stop-too-close. -/
theorem C3_stops_distance_validator (symbol : SymbolInfo) (ot : OrderType) (price : ℚ)
    (sl tp : Option ℚ) :
    ((symbol.trade_stops_level.getD 0 ≤ 0 ∨ symbol.point.getD 0 ≤ 0) →
      _validate_stops_distance symbol ot price sl tp = (true, none)) ∧
    (0 < symbol.trade_stops_level.getD 0 → 0 < symbol.point.getD 0 →
      (∀ s, sl = some s →
        ((if ot = .BUY ∨ ot = .BUY_LIMIT ∨ ot = .BUY_STOP then price - s else s - price) ≤ 0 →
          _validate_stops_distance symbol ot price sl tp = (false, some .slWrongSide)) ∧
        (0 < (if ot = .BUY ∨ ot = .BUY_LIMIT ∨ ot = .BUY_STOP then price - s else s - price) →
          (if ot = .BUY ∨ ot = .BUY_LIMIT ∨ ot = .BUY_STOP then price - s else s - price) <
            (symbol.trade_stops_level.getD 0 : ℚ) * symbol.point.getD 0 →
          _validate_stops_distance symbol ot price sl tp =
            (false, some (.slTooClose ((symbol.trade_stops_level.getD 0 : ℚ) * symbol.point.getD 0))))) ∧
      ((sl = none ∨ ∃ s, sl = some s ∧
          (symbol.trade_stops_level.getD 0 : ℚ) * symbol.point.getD 0 ≤
            (if ot = .BUY ∨ ot = .BUY_LIMIT ∨ ot = .BUY_STOP then price - s else s - price)) →
        (∀ u, tp = some u →
          ((if ot = .BUY ∨ ot = .BUY_LIMIT ∨ ot = .BUY_STOP then u - price else price - u) ≤ 0 →
            _validate_stops_distance symbol ot price sl tp = (false, some .tpWrongSide)) ∧
          (0 < (if ot = .BUY ∨ ot = .BUY_LIMIT ∨ ot = .BUY_STOP then u - price else price - u) →
            (if ot = .BUY ∨ ot = .BUY_LIMIT ∨ ot = .BUY_STOP then u - price else price - u) <
              (symbol.trade_stops_level.getD 0 : ℚ) * symbol.point.getD 0 →
            _validate_stops_distance symbol ot price sl tp =
              (false, some (.tpTooClose ((symbol.trade_stops_level.getD 0 : ℚ) * symbol.point.getD 0))))) ∧
        ((tp = none ∨ ∃ u, tp = some u ∧
            (symbol.trade_stops_level.getD 0 : ℚ) * symbol.point.getD 0 ≤
              (if ot = .BUY ∨ ot = .BUY_LIMIT ∨ ot = .BUY_STOP then u - price else price - u)) →
          _validate_stops_distance symbol ot price sl tp = (true, none)))) ∧
    _validate_stops_distance ⟨some (1/100000), none, none, none, some 100⟩ .BUY
      (11001/10000) (some (10995/10000)) none = (false, some (.slTooClose (1/1000))) := by
  have hbuy : (sideOfOrderType ot = Tipo.compra) =
      (ot = .BUY ∨ ot = .BUY_LIMIT ∨ ot = .BUY_STOP) := by
    cases ot <;> simp [sideOfOrderType]
  refine ⟨fun h => ?_, fun hL hP => ?_, ?_⟩
  · unfold _validate_stops_distance
    rw [if_pos h]
  · have hcond : ¬ (symbol.trade_stops_level.getD 0 ≤ 0 ∨ symbol.point.getD 0 ≤ 0) := by
      push_neg
      exact ⟨hL, hP⟩
    have hminD : (0 : ℚ) < (symbol.trade_stops_level.getD 0 : ℚ) * symbol.point.getD 0 :=
      mul_pos (by exact_mod_cast hL) hP
    have hval : ∀ sl' tp' : Option ℚ, _validate_stops_distance symbol ot price sl' tp' =
        Option.elim sl'
          (Option.elim tp' (true, none) (fun u =>
            if (if ot = .BUY ∨ ot = .BUY_LIMIT ∨ ot = .BUY_STOP then u - price else price - u) ≤ 0 then
              (false, some .tpWrongSide)
            else if (if ot = .BUY ∨ ot = .BUY_LIMIT ∨ ot = .BUY_STOP then u - price else price - u) <
                (symbol.trade_stops_level.getD 0 : ℚ) * symbol.point.getD 0 then
              (false, some (.tpTooClose ((symbol.trade_stops_level.getD 0 : ℚ) * symbol.point.getD 0)))
            else (true, none)))
          (fun s =>
            if (if ot = .BUY ∨ ot = .BUY_LIMIT ∨ ot = .BUY_STOP then price - s else s - price) ≤ 0 then
              (false, some .slWrongSide)
            else if (if ot = .BUY ∨ ot = .BUY_LIMIT ∨ ot = .BUY_STOP then price - s else s - price) <
                (symbol.trade_stops_level.getD 0 : ℚ) * symbol.point.getD 0 then
              (false, some (.slTooClose ((symbol.trade_stops_level.getD 0 : ℚ) * symbol.point.getD 0)))
            else Option.elim tp' (true, none) (fun u =>
              if (if ot = .BUY ∨ ot = .BUY_LIMIT ∨ ot = .BUY_STOP then u - price else price - u) ≤ 0 then
                (false, some .tpWrongSide)
              else if (if ot = .BUY ∨ ot = .BUY_LIMIT ∨ ot = .BUY_STOP then u - price else price - u) <
                  (symbol.trade_stops_level.getD 0 : ℚ) * symbol.point.getD 0 then
                (false, some (.tpTooClose ((symbol.trade_stops_level.getD 0 : ℚ) * symbol.point.getD 0)))
              else (true, none))) := by
      intro sl' tp'
      rcases sl' with _ | s <;> rcases tp' with _ | u <;>
        simp only [_validate_stops_distance, Option.elim] <;>
        rw [if_neg hcond] <;>
        simp [hbuy]
    refine ⟨fun s hs => ?_, fun hsl => ?_⟩
    · subst hs
      constructor
      · intro hd
        rw [hval]
        simp only [Option.elim]
        rw [if_pos hd]
      · intro hd1 hd2
        rw [hval]
        simp only [Option.elim]
        rw [if_neg (by linarith), if_pos hd2]
    · have hskip : _validate_stops_distance symbol ot price sl tp =
          Option.elim tp (true, none) (fun u =>
            if (if ot = .BUY ∨ ot = .BUY_LIMIT ∨ ot = .BUY_STOP then u - price else price - u) ≤ 0 then
              (false, some .tpWrongSide)
            else if (if ot = .BUY ∨ ot = .BUY_LIMIT ∨ ot = .BUY_STOP then u - price else price - u) <
                (symbol.trade_stops_level.getD 0 : ℚ) * symbol.point.getD 0 then
              (false, some (.tpTooClose ((symbol.trade_stops_level.getD 0 : ℚ) * symbol.point.getD 0)))
            else (true, none)) := by
        rcases hsl with h | ⟨s, hs, hd⟩
        · subst h
          rw [hval]
          rfl
        · subst hs
          rw [hval]
          simp only [Option.elim]
          rw [if_neg (by linarith), if_neg (by linarith)]
      refine ⟨fun u hu => ?_, fun htp => ?_⟩
      · subst hu
        constructor
        · intro hd
          rw [hskip]
          simp only [Option.elim]
          rw [if_pos hd]
        · intro hd1 hd2
          rw [hskip]
          simp only [Option.elim]
          rw [if_neg (by linarith), if_pos hd2]
      · rcases htp with h | ⟨u, hu, hd⟩
        · subst h
          rw [hskip]
          rfl
        · subst hu
          rw [hskip]
          simp only [Option.elim]
          rw [if_neg (by linarith), if_neg (by linarith)]
  · norm_num [_validate_stops_distance, sideOfOrderType]


/-- C3 witness: the no-restriction case, and an active Sell case whose
takeProfit is positive but too close. -/
theorem C3_stops_distance_validator_witness :
    _validate_stops_distance ⟨none, none, none, none, none⟩ .SELL 1 (some 2) (some 0) =
      (true, none) ∧
    _validate_stops_distance ⟨some 1, none, none, none, some 2⟩ .SELL 10 (some 12) (some 9) =
      (false, some (.tpTooClose 2)) := by
  constructor
  · exact (C3_stops_distance_validator ⟨none, none, none, none, none⟩ .SELL 1
      (some 2) (some 0)).1 (Or.inl (by norm_num))
  · have h := ((((C3_stops_distance_validator ⟨some 1, none, none, none, some 2⟩ .SELL 10
      (some 12) (some 9)).2.1 (by norm_num) (by norm_num)).2
      (Or.inr ⟨12, rfl, by simp; try norm_num⟩)).1 9 rfl).2
      (by simp; try norm_num) (by simp; try norm_num)
    simpa using h

/-- C7 counterexample: a Buy order with stopLoss 2 at reference 1 (sl ≥
reference), under constraints with stop level 0, is accepted by the
Stop-Distance Validator — the claim's "for every symbol constraints"
rejection does not hold. -/
theorem C7_counterexample :
    (1 : ℚ) ≤ 2 ∧
    _validate_stops_distance ⟨some (1/100000), none, none, none, some 0⟩ .BUY 1
      (some 2) none = (true, none) := by
  constructor
  · norm_num
  · norm_num [_validate_stops_distance]

/-- C7 (amended): for every Buy-kind order with a supplied stopLoss at or
above the reference price, the Stop-Distance Validator rejects with the
stop-on-wrong-side reason regardless of the distance, provided the stop
level and tick size are positive (with either non-positive the validator
passes everything). -/
theorem C7_buy_sl_wrong_side (symbol : SymbolInfo) (ot : OrderType) (price s : ℚ)
    (tp : Option ℚ) (hL : 0 < symbol.trade_stops_level.getD 0)
    (hP : 0 < symbol.point.getD 0)
    (hb : ot = .BUY ∨ ot = .BUY_LIMIT ∨ ot = .BUY_STOP) (hs : price ≤ s) :
    _validate_stops_distance symbol ot price (some s) tp = (false, some .slWrongSide) := by
  have hcond : ¬ (symbol.trade_stops_level.getD 0 ≤ 0 ∨ symbol.point.getD 0 ≤ 0) := by
    push_neg
    exact ⟨hL, hP⟩
  have hside : sideOfOrderType ot = Tipo.compra := by
    rcases hb with h | h | h <;> subst h <;> rfl
  have hd : price - s ≤ 0 := by linarith
  simp only [_validate_stops_distance, hside]
  rw [if_neg hcond]
  simp [hd]

/-- C7 witness: a Buy-limit whose stopLoss equals the reference is rejected
as on the wrong side under an active stop level. -/
theorem C7_buy_sl_wrong_side_witness :
    _validate_stops_distance ⟨some (1/100000), none, none, none, some 100⟩ .BUY_LIMIT 1
      (some 1) none = (false, some .slWrongSide) :=
  C7_buy_sl_wrong_side ⟨some (1/100000), none, none, none, some 100⟩ .BUY_LIMIT 1 1 none
    (by norm_num) (by norm_num) (Or.inr (Or.inl rfl)) (le_refl 1)

/-- C4: whenever the Order Request Builder returns a request, a Market
intent got actionKind ImmediateDeal, the normalized quote side matching the
intent's side as price, and the IOC fill policy; a Limit or Stop intent got
actionKind PendingOrder, the normalized requested price, and the RETURN fill
policy; the comment tag is fixed per execution style; and the stopLoss /
takeProfit fields of the request equal those of the intent (absent iff
absent). -/
theorem C4_order_request_builder (o : Ordem) (symbol : SymbolInfo) (tick : Tick)
    (req : OrderRequest) (h : _build_order_request o symbol tick = .ok req) :
    req.comment = "API_MT5_v2_" ++ execucaoStr o.execucao ∧
    req.sl = o.sl ∧ req.tp = o.tp ∧
    (o.execucao = .mercado →
      req.action = .DEAL ∧ req.type_filling = .IOC ∧
      req.price = _normalize_price symbol (if o.tipo = .compra then tick.ask else tick.bid)) ∧
    (o.execucao ≠ .mercado →
      req.action = .PENDING ∧ req.type_filling = .RETURN ∧
      ∃ p, o.preco = some p ∧ req.price = _normalize_price symbol p) := by
  obtain ⟨tk, tipo, qt, ex, pr, sl, tp⟩ := o
  cases ex with
  | mercado =>
    simp only [_build_order_request, _build_order_tail] at h
    split at h
    · simp at h
    · rw [Except.ok.injEq] at h
      subst h
      exact ⟨rfl, rfl, rfl, fun _ => ⟨rfl, rfl, rfl⟩, fun hne => absurd rfl hne⟩
  | limite =>
    cases pr with
    | none => simp [_build_order_request] at h
    | some p =>
      simp only [_build_order_request, _build_order_tail] at h
      split at h
      · simp at h
      · split at h
        · simp at h
        · rw [Except.ok.injEq] at h
          subst h
          exact ⟨rfl, rfl, rfl, fun hm => by simp at hm, fun _ => ⟨rfl, rfl, p, rfl, rfl⟩⟩
  | stop =>
    cases pr with
    | none => simp [_build_order_request] at h
    | some p =>
      simp only [_build_order_request, _build_order_tail] at h
      split at h
      · simp at h
      · split at h
        · simp at h
        · rw [Except.ok.injEq] at h
          subst h
          exact ⟨rfl, rfl, rfl, fun hm => by simp at hm, fun _ => ⟨rfl, rfl, p, rfl, rfl⟩⟩

/-- C4 witness: a concrete market buy builds successfully and the theorem's
market conjunct applies to the resulting request. -/
theorem C4_order_request_builder_witness :
    (OrderRequest.mk .DEAL "E" 1 .BUY 2 20 1001 "API_MT5_v2_mercado" .GTC .IOC none none).action
        = .DEAL ∧
    (OrderRequest.mk .DEAL "E" 1 .BUY 2 20 1001 "API_MT5_v2_mercado" .GTC .IOC none none).type_filling
        = .IOC ∧
    (OrderRequest.mk .DEAL "E" 1 .BUY 2 20 1001 "API_MT5_v2_mercado" .GTC .IOC none none).price
        = _normalize_price ⟨none, none, none, none, none⟩ 2 :=
  (C4_order_request_builder ⟨"E", .compra, 1, .mercado, none, none, none⟩
    ⟨none, none, none, none, none⟩ ⟨1, 2⟩
    ⟨.DEAL, "E", 1, .BUY, 2, 20, 1001, "API_MT5_v2_mercado", .GTC, .IOC, none, none⟩
    rfl).2.2.2.1 rfl

/-- C10: two Market-style intents differing only in their requestedPrice
field get the same validation verdict and the same built request, and the
built market request's price comes solely from the current quote (normalized
ask for Buy, normalized bid for Sell). -/
theorem C10_market_ignores_preco (symbol : SymbolInfo) (tick? : Option Tick) (tick : Tick)
    (o : Ordem) (p1 p2 : Option ℚ) (hm : o.execucao = .mercado) :
    _validar_ordem symbol tick? { o with preco := p1 } =
      _validar_ordem symbol tick? { o with preco := p2 } ∧
    _build_order_request { o with preco := p1 } symbol tick =
      _build_order_request { o with preco := p2 } symbol tick ∧
    (∀ req, _build_order_request { o with preco := p1 } symbol tick = .ok req →
      req.price = _normalize_price symbol (if o.tipo = .compra then tick.ask else tick.bid)) := by
  obtain ⟨tk, tipo, qt, ex, pr, sl, tp⟩ := o
  simp only at hm
  subst hm
  refine ⟨?_, ?_, ?_⟩
  · simp only [_validar_ordem, _validar_ordem_tail]
  · simp only [_build_order_request, _build_order_tail]
  · intro req h
    simp only [_build_order_request, _build_order_tail] at h
    split at h
    · simp at h
    · rw [Except.ok.injEq] at h
      subst h
      rfl

/-- C10 witness: supplying requestedPrice 5 on a market buy gives the same
verdict as omitting it. -/
theorem C10_market_ignores_preco_witness :
    _validar_ordem ⟨none, none, none, none, none⟩ (some ⟨1, 2⟩)
        ⟨"E", .compra, 1, .mercado, some 5, none, none⟩ =
      _validar_ordem ⟨none, none, none, none, none⟩ (some ⟨1, 2⟩)
        ⟨"E", .compra, 1, .mercado, none, none, none⟩ :=
  (C10_market_ignores_preco ⟨none, none, none, none, none⟩ (some ⟨1, 2⟩) ⟨1, 2⟩
    ⟨"E", .compra, 1, .mercado, none, none, none⟩ (some 5) none rfl).1

/-- C8 (amended): a Limit or Stop intent with no requestedPrice is always
rejected (never built nor submitted), and when the volume check passes the
rejection reason is the missing-price one; but the rejection comes only
after the constraints resolution, and after the quote resolution whenever
the volume check passed — not before any collaborator call. -/
theorem C8_malformed_price (symbol : SymbolInfo) (tick? : Option Tick) (o : Ordem)
    (hx : o.execucao ≠ .mercado) (hp : o.preco = none) :
    (_validar_ordem symbol tick? o).ok = false ∧
    Event.buildRequest ∉ ordem_trace symbol tick? o ∧
    Event.submit ∉ ordem_trace symbol tick? o ∧
    Event.resolveConstraints ∈ ordem_trace symbol tick? o ∧
    ((_validate_volume symbol o.quantidade).1 = true →
      Event.resolveQuote ∈ _validar_ordem_trace symbol o ∧
      (∀ t, tick? = some t →
        (_validar_ordem symbol tick? o).motivo =
          some (if o.execucao = .limite then .precoObrigatorioLimite
            else .precoObrigatorioStop))) := by
  obtain ⟨tk, tipo, qt, ex, pr, sl, tp⟩ := o
  simp only at hp
  subst hp
  rcases hveq : _validate_volume symbol qt with ⟨b, r⟩
  have hok : (_validar_ordem symbol tick? ⟨tk, tipo, qt, ex, none, sl, tp⟩).ok = false := by
    cases b
    · simp [_validar_ordem, hveq]
    · cases tick? with
      | none => simp [_validar_ordem, hveq]
      | some t =>
        cases ex with
        | mercado => exact absurd rfl hx
        | limite => simp [_validar_ordem, hveq]
        | stop => simp [_validar_ordem, hveq]
  have htr : ordem_trace symbol tick? ⟨tk, tipo, qt, ex, none, sl, tp⟩ =
      _validar_ordem_trace symbol ⟨tk, tipo, qt, ex, none, sl, tp⟩ := by
    simp [ordem_trace, hok]
  refine ⟨hok, ?_, ?_, ?_, ?_⟩
  · rw [htr]
    by_cases hc : (_validate_volume symbol qt).1 <;> simp [_validar_ordem_trace, hc]
  · rw [htr]
    by_cases hc : (_validate_volume symbol qt).1 <;> simp [_validar_ordem_trace, hc]
  · rw [htr]
    by_cases hc : (_validate_volume symbol qt).1 <;> simp [_validar_ordem_trace, hc]
  · intro hv
    simp only at hv
    subst hv
    constructor
    · simp [_validar_ordem_trace, hveq]
    · intro t ht
      subst ht
      cases ex with
      | mercado => exact absurd rfl hx
      | limite => simp [_validar_ordem, hveq]
      | stop => simp [_validar_ordem, hveq]


/-- C8 counterexample: a limit intent with no requestedPrice and valid
volume is rejected with the missing-price reason, yet both the constraints
resolution and the quote resolution appear in the orchestrator's
collaborator-call trace before that rejection — contradicting "no
constraints resolution, quote resolution ... occurs before this
rejection". -/
theorem C8_counterexample :
    (_validar_ordem ⟨none, some 1, some 2, some 1, none⟩ (some ⟨1, 1⟩)
        ⟨"X", .compra, 1, .limite, none, none, none⟩).motivo = some .precoObrigatorioLimite ∧
    Event.resolveConstraints ∈ _validar_ordem_trace ⟨none, some 1, some 2, some 1, none⟩
        ⟨"X", .compra, 1, .limite, none, none, none⟩ ∧
    Event.resolveQuote ∈ _validar_ordem_trace ⟨none, some 1, some 2, some 1, none⟩
        ⟨"X", .compra, 1, .limite, none, none, none⟩ := by
  refine ⟨?_, ?_, ?_⟩ <;>
    norm_num [_validar_ordem, _validar_ordem_trace, _validate_volume, pythonRound]

/-- C8 witness: a stop intent with no price on a live symbol is rejected,
never submitted, and its validation did resolve the quote. -/
theorem C8_malformed_price_witness :
    (_validar_ordem ⟨none, some 1, some 2, some 1, none⟩ (some ⟨1, 1⟩)
        ⟨"X", .venda, 1, .stop, none, none, none⟩).ok = false ∧
    Event.submit ∉ ordem_trace ⟨none, some 1, some 2, some 1, none⟩ (some ⟨1, 1⟩)
        ⟨"X", .venda, 1, .stop, none, none, none⟩ ∧
    Event.resolveQuote ∈ _validar_ordem_trace ⟨none, some 1, some 2, some 1, none⟩
        ⟨"X", .venda, 1, .stop, none, none, none⟩ := by
  have h := C8_malformed_price ⟨none, some 1, some 2, some 1, none⟩ (some ⟨1, 1⟩)
    ⟨"X", .venda, 1, .stop, none, none, none⟩ (by simp) rfl
  exact ⟨h.1, h.2.2.1,
    (h.2.2.2.2 (by norm_num [_validate_volume, pythonRound])).1⟩

/-- C9 counterexample: with volumeStep = 0 the submission endpoint returns
HTTP 400 with the step-fault reason — the same client-error classification
as an ordinary below-minimum validation rejection, not a server-side
CollaboratorUnavailable failure. -/
theorem C9_counterexample :
    ordem_endpoint (some ⟨none, some 1, some 2, some 0, none⟩) (some ⟨1, 1⟩)
        ⟨"X", .compra, 1, .mercado, none, none, none⟩ = .error (400, some .stepFault) ∧
    ordem_endpoint (some ⟨none, some 1, some 2, some 1, none⟩) (some ⟨1, 1⟩)
        ⟨"X", .compra, 1/2, .mercado, none, none, none⟩ = .error (400, some (.belowMin 1)) := by
  constructor <;> norm_num [ordem_endpoint, _validar_ordem, _validate_volume]

/-- C9 (amended): a zero volumeStep never propagates an unhandled fault:
for any in-range quantity the Volume Validator catches the division fault
and returns an ordinary rejection with the step-fault reason, which the
submission endpoint surfaces as an HTTP 400 client validation error. -/
theorem C9_zero_step (symbol : SymbolInfo) (tick? : Option Tick) (o : Ordem)
    (minv maxv : ℚ) (hmin : symbol.volume_min = some minv)
    (hmax : symbol.volume_max = some maxv) (hstep : symbol.volume_step = some 0)
    (h1 : minv ≤ o.quantidade) (h2 : o.quantidade ≤ maxv) :
    _validate_volume symbol o.quantidade = (false, some .stepFault) ∧
    ordem_endpoint (some symbol) tick? o = .error (400, some .stepFault) := by
  obtain ⟨pt, vmin, vmax, vstep, lvl⟩ := symbol
  have e1 : vmin = some minv := hmin
  have e2 : vmax = some maxv := hmax
  have e3 : vstep = some 0 := hstep
  subst e1
  subst e2
  subst e3
  have hvv : _validate_volume ⟨pt, some minv, some maxv, some 0, lvl⟩ o.quantidade =
      (false, some .stepFault) := by
    show (if o.quantidade < minv then ((false : Bool), some (Reason.belowMin minv))
      else if o.quantidade > maxv then (false, some (.aboveMax maxv))
      else if (0 : ℚ) = 0 then (false, some .stepFault)
      else if |(o.quantidade - minv) / 0 - (pythonRound ((o.quantidade - minv) / 0) : ℚ)| >
          1/1000000 then (false, some (.invalidStep 0 minv))
      else (true, none)) = (false, some .stepFault)
    rw [if_neg (not_lt.mpr h1), if_neg (not_lt.mpr h2), if_pos rfl]
  refine ⟨hvv, ?_⟩
  simp [ordem_endpoint, _validar_ordem, hvv]

/-- C9 witness: quantity 1.5 in [1, 2] with step 0 is rejected with the
step-fault reason and surfaced as HTTP 400. -/
theorem C9_zero_step_witness :
    _validate_volume ⟨none, some 1, some 2, some 0, none⟩ (3/2) = (false, some .stepFault) ∧
    ordem_endpoint (some ⟨none, some 1, some 2, some 0, none⟩) (some ⟨1, 1⟩)
        ⟨"X", .venda, 3/2, .mercado, none, none, none⟩ = .error (400, some .stepFault) :=
  C9_zero_step ⟨none, some 1, some 2, some 0, none⟩ (some ⟨1, 1⟩)
    ⟨"X", .venda, 3/2, .mercado, none, none, none⟩ 1 2 rfl rfl rfl
    (by norm_num) (by norm_num)


/-- C6 counterexample: with tick 0.01 and stop level 1 (minimum distance
0.01), a market buy at ask 1.0049 with stop loss 0.994 has raw distance
0.0109, clearing the minimum by 0.0009, so the dry-run verdict is
Admissible; yet the builder re-checks the stop distance against the
normalized price 1.00 (distance 0.006, short of the minimum by 0.004) and
rejects it, and the submission endpoint returns HTTP 400 after the
Admissible verdict on the very same inputs.  Every comparison clears its
threshold by margins far above double-precision rounding error, and the
rounded ratio 100.49 is well away from a rounding tie. -/
theorem C6_counterexample :
    (_validar_ordem ⟨some (1/100), some (1/100), some 10, some (1/100), some 1⟩
        (some ⟨10048/10000, 10049/10000⟩)
        ⟨"E", .compra, 1/100, .mercado, none, some (994/1000), none⟩).ok = true ∧
    _build_order_request ⟨"E", .compra, 1/100, .mercado, none, some (994/1000), none⟩
        ⟨some (1/100), some (1/100), some 10, some (1/100), some 1⟩ ⟨10048/10000, 10049/10000⟩ =
      .error (some (.slTooClose (1/100))) ∧
    ordem_endpoint (some ⟨some (1/100), some (1/100), some 10, some (1/100), some 1⟩)
        (some ⟨10048/10000, 10049/10000⟩)
        ⟨"E", .compra, 1/100, .mercado, none, some (994/1000), none⟩ =
      .error (400, some (.slTooClose (1/100))) := by
  refine ⟨?_, ?_, ?_⟩ <;>
    norm_num [ordem_endpoint, _validar_ordem, _validar_ordem_tail, _validate_volume,
      _build_order_request, _build_order_tail, _normalize_price, _validate_stops_distance,
      sideOfOrderType, orderTypeOf, pythonRound]


/-- C6 (amended): against identical constraints and quote, the submission
endpoint invokes the Order Request Builder exactly when the orchestrator
verdict is Admissible, and a non-Admissible verdict is surfaced as HTTP 400
with the verdict's reason; moreover, after an Admissible verdict the builder
raises no further rejection and the request is submitted, provided the
stop-distance reference price (quote side for market orders, requested price
for pending ones) is invariant under price normalization. -/
theorem C6_dry_run_vs_submission (symbol : SymbolInfo) (tick? : Option Tick) (o : Ordem) :
    (Event.buildRequest ∈ ordem_trace symbol tick? o ↔
      (_validar_ordem symbol tick? o).ok = true) ∧
    ((_validar_ordem symbol tick? o).ok = false →
      ordem_endpoint (some symbol) tick? o =
        .error (400, (_validar_ordem symbol tick? o).motivo)) ∧
    (∀ t, tick? = some t → (_validar_ordem symbol tick? o).ok = true →
      _normalize_price symbol (if o.execucao = .mercado then
          (if o.tipo = .compra then t.ask else t.bid) else o.preco.getD 0) =
        (if o.execucao = .mercado then
          (if o.tipo = .compra then t.ask else t.bid) else o.preco.getD 0) →
      ∃ req, _build_order_request o symbol t = .ok req ∧
        ordem_endpoint (some symbol) tick? o = .ok req) := by
  have hok_tick : (_validar_ordem symbol tick? o).ok = true → ∃ t, tick? = some t := by
    intro hok
    cases h : tick? with
    | some t => exact ⟨t, rfl⟩
    | none =>
      exfalso
      subst h
      rcases hv : _validate_volume symbol o.quantidade with ⟨bv, rv⟩
      cases bv <;> simp [_validar_ordem, hv] at hok
  have hnb : Event.buildRequest ∉ _validar_ordem_trace symbol o := by
    by_cases hc : (_validate_volume symbol o.quantidade).1 <;> simp [_validar_ordem_trace, hc]
  refine ⟨⟨?_, ?_⟩, ?_, ?_⟩
  · intro hmem
    by_contra hne
    have hf : (_validar_ordem symbol tick? o).ok = false := by
      cases h : (_validar_ordem symbol tick? o).ok
      · rfl
      · exact absurd h hne
    rw [ordem_trace.eq_def, hf] at hmem
    simp at hmem
    exact hnb hmem
  · intro hok
    obtain ⟨t, ht⟩ := hok_tick hok
    subst ht
    simp [ordem_trace, hok]
  · intro hf
    simp [ordem_endpoint, hf]
  · intro t ht hok hnorm
    subst ht
    obtain ⟨tk, tipo, qt, ex, pr, sl, tp⟩ := o
    rcases hv : _validate_volume symbol qt with ⟨bv, rv⟩
    cases bv with
    | false => simp [_validar_ordem, hv] at hok
    | true =>
      cases ex with
      | mercado =>
        cases tipo with
        | compra =>
          simp at hnorm
          rcases hs : _validate_stops_distance symbol .BUY t.ask sl tp with ⟨bs, rs⟩
          cases bs with
          | false =>
            simp [_validar_ordem, hv, _validar_ordem_tail, orderTypeOf, hs] at hok
          | true =>
            have hs2 : _validate_stops_distance symbol .BUY
                (_normalize_price symbol t.ask) sl tp = (true, rs) := by
              rw [hnorm]
              exact hs
            have hb : _build_order_request ⟨tk, .compra, qt, .mercado, pr, sl, tp⟩ symbol t =
                .ok ⟨.DEAL, tk, qt, .BUY, _normalize_price symbol t.ask, 20, 1001,
                  "API_MT5_v2_" ++ execucaoStr .mercado, .GTC, .IOC, sl, tp⟩ := by
              simp [_build_order_request, _build_order_tail, hs2]
            exact ⟨_, hb, by simp [ordem_endpoint, hok, hb]⟩
        | venda =>
          simp at hnorm
          rcases hs : _validate_stops_distance symbol .SELL t.bid sl tp with ⟨bs, rs⟩
          cases bs with
          | false =>
            simp [_validar_ordem, hv, _validar_ordem_tail, orderTypeOf, hs] at hok
          | true =>
            have hs2 : _validate_stops_distance symbol .SELL
                (_normalize_price symbol t.bid) sl tp = (true, rs) := by
              rw [hnorm]
              exact hs
            have hb : _build_order_request ⟨tk, .venda, qt, .mercado, pr, sl, tp⟩ symbol t =
                .ok ⟨.DEAL, tk, qt, .SELL, _normalize_price symbol t.bid, 20, 1001,
                  "API_MT5_v2_" ++ execucaoStr .mercado, .GTC, .IOC, sl, tp⟩ := by
              simp [_build_order_request, _build_order_tail, hs2]
            exact ⟨_, hb, by simp [ordem_endpoint, hok, hb]⟩
      | limite =>
        cases pr with
        | none => simp [_validar_ordem, hv] at hok
        | some p =>
          simp at hnorm
          cases tipo with
          | compra =>
            rcases hl : _validate_limit_price .BUY_LIMIT (_normalize_price symbol p)
                (some t) with ⟨bl, rl⟩
            cases bl with
            | false => simp [_validar_ordem, hv, hl] at hok
            | true =>
              rcases hs : _validate_stops_distance symbol .BUY_LIMIT p sl tp with ⟨bs, rs⟩
              cases bs with
              | false =>
                simp [_validar_ordem, hv, hl, _validar_ordem_tail, orderTypeOf, hs] at hok
              | true =>
                have hs2 : _validate_stops_distance symbol .BUY_LIMIT
                    (_normalize_price symbol p) sl tp = (true, rs) := by
                  rw [hnorm]
                  exact hs
                have hb : _build_order_request ⟨tk, .compra, qt, .limite, some p, sl, tp⟩
                    symbol t = .ok ⟨.PENDING, tk, qt, .BUY_LIMIT, _normalize_price symbol p,
                      20, 1001, "API_MT5_v2_" ++ execucaoStr .limite, .GTC, .RETURN, sl, tp⟩ := by
                  simp [_build_order_request, _build_order_tail, hl, hs2]
                exact ⟨_, hb, by simp [ordem_endpoint, hok, hb]⟩
          | venda =>
            rcases hl : _validate_limit_price .SELL_LIMIT (_normalize_price symbol p)
                (some t) with ⟨bl, rl⟩
            cases bl with
            | false => simp [_validar_ordem, hv, hl] at hok
            | true =>
              rcases hs : _validate_stops_distance symbol .SELL_LIMIT p sl tp with ⟨bs, rs⟩
              cases bs with
              | false =>
                simp [_validar_ordem, hv, hl, _validar_ordem_tail, orderTypeOf, hs] at hok
              | true =>
                have hs2 : _validate_stops_distance symbol .SELL_LIMIT
                    (_normalize_price symbol p) sl tp = (true, rs) := by
                  rw [hnorm]
                  exact hs
                have hb : _build_order_request ⟨tk, .venda, qt, .limite, some p, sl, tp⟩
                    symbol t = .ok ⟨.PENDING, tk, qt, .SELL_LIMIT, _normalize_price symbol p,
                      20, 1001, "API_MT5_v2_" ++ execucaoStr .limite, .GTC, .RETURN, sl, tp⟩ := by
                  simp [_build_order_request, _build_order_tail, hl, hs2]
                exact ⟨_, hb, by simp [ordem_endpoint, hok, hb]⟩
      | stop =>
        cases pr with
        | none => simp [_validar_ordem, hv] at hok
        | some p =>
          simp at hnorm
          cases tipo with
          | compra =>
            rcases hl : _validate_stop_price .BUY_STOP (_normalize_price symbol p)
                (some t) with ⟨bl, rl⟩
            cases bl with
            | false => simp [_validar_ordem, hv, hl] at hok
            | true =>
              rcases hs : _validate_stops_distance symbol .BUY_STOP p sl tp with ⟨bs, rs⟩
              cases bs with
              | false =>
                simp [_validar_ordem, hv, hl, _validar_ordem_tail, orderTypeOf, hs] at hok
              | true =>
                have hs2 : _validate_stops_distance symbol .BUY_STOP
                    (_normalize_price symbol p) sl tp = (true, rs) := by
                  rw [hnorm]
                  exact hs
                have hb : _build_order_request ⟨tk, .compra, qt, .stop, some p, sl, tp⟩
                    symbol t = .ok ⟨.PENDING, tk, qt, .BUY_STOP, _normalize_price symbol p,
                      20, 1001, "API_MT5_v2_" ++ execucaoStr .stop, .GTC, .RETURN, sl, tp⟩ := by
                  simp [_build_order_request, _build_order_tail, hl, hs2]
                exact ⟨_, hb, by simp [ordem_endpoint, hok, hb]⟩
          | venda =>
            rcases hl : _validate_stop_price .SELL_STOP (_normalize_price symbol p)
                (some t) with ⟨bl, rl⟩
            cases bl with
            | false => simp [_validar_ordem, hv, hl] at hok
            | true =>
              rcases hs : _validate_stops_distance symbol .SELL_STOP p sl tp with ⟨bs, rs⟩
              cases bs with
              | false =>
                simp [_validar_ordem, hv, hl, _validar_ordem_tail, orderTypeOf, hs] at hok
              | true =>
                have hs2 : _validate_stops_distance symbol .SELL_STOP
                    (_normalize_price symbol p) sl tp = (true, rs) := by
                  rw [hnorm]
                  exact hs
                have hb : _build_order_request ⟨tk, .venda, qt, .stop, some p, sl, tp⟩
                    symbol t = .ok ⟨.PENDING, tk, qt, .SELL_STOP, _normalize_price symbol p,
                      20, 1001, "API_MT5_v2_" ++ execucaoStr .stop, .GTC, .RETURN, sl, tp⟩ := by
                  simp [_build_order_request, _build_order_tail, hl, hs2]
                exact ⟨_, hb, by simp [ordem_endpoint, hok, hb]⟩


/-- C6 witness: a concrete admissible market buy gets its builder invoked
and submitted with no further rejection. -/
theorem C6_dry_run_vs_submission_witness :
    Event.buildRequest ∈ ordem_trace ⟨none, some 1, some 2, some 1, none⟩ (some ⟨1, 2⟩)
        ⟨"E", .compra, 1, .mercado, none, none, none⟩ ∧
    (∃ req, _build_order_request ⟨"E", .compra, 1, .mercado, none, none, none⟩
        ⟨none, some 1, some 2, some 1, none⟩ ⟨1, 2⟩ = .ok req ∧
      ordem_endpoint (some ⟨none, some 1, some 2, some 1, none⟩) (some ⟨1, 2⟩)
        ⟨"E", .compra, 1, .mercado, none, none, none⟩ = .ok req) := by
  have h := C6_dry_run_vs_submission ⟨none, some 1, some 2, some 1, none⟩ (some ⟨1, 2⟩)
    ⟨"E", .compra, 1, .mercado, none, none, none⟩
  have hok : (_validar_ordem ⟨none, some 1, some 2, some 1, none⟩ (some ⟨1, 2⟩)
      ⟨"E", .compra, 1, .mercado, none, none, none⟩).ok = true := by
    norm_num [_validar_ordem, _validar_ordem_tail, _validate_volume, _validate_stops_distance,
      orderTypeOf, pythonRound]
  exact ⟨h.1.mpr hok, h.2.2 ⟨1, 2⟩ rfl hok (by simp [_normalize_price])⟩


end MT5
